import Mathlib

/-!
Shallow embedding of the market-signal decision engine of the `shoes`
repository (bot.py, config.py, mood_config.py), with theorems checking the
natural-language specification against the code.

Numbers that Python represents as `float` are modelled as `ℚ`; Python `int`
counters are `ℕ`/`ℤ`.  Division in `ℚ` is total with `x / 0 = 0`; every
theorem that depends on a quotient carries the corresponding nonzero
hypothesis, matching the inputs on which the Python code runs the same
arithmetic without raising.
-/

namespace Shoes

/-! ### mood_config.py -/

/-- The `Mood` enum of mood_config.py: five market-sentiment classes. -/
inductive Mood where
  | bullish
  | bearish
  | neutral
  | volatile
  | recovering
deriving DecidableEq, Repr

/-- The `MoodIndicators` dataclass: price change (24h %), trading volume,
volatility, and three optional indicators. -/
structure MoodIndicators where
  price_change : ℚ
  trading_volume : ℚ
  volatility : ℚ
  social_sentiment : Option ℚ := none
  funding_rates : Option ℚ := none
  liquidation_volume : Option ℚ := none

/-- The five mood accumulators of `determine_advanced_mood` (the
`mood_scores` dict, in insertion order bullish, bearish, neutral, volatile,
recovering). -/
structure MoodScores where
  bullish : ℕ
  bearish : ℕ
  neutral : ℕ
  volatile : ℕ
  recovering : ℕ
deriving DecidableEq, Repr

/-- Score lookup in the accumulator record. -/
def MoodScores.score (s : MoodScores) : Mood → ℕ
  | .bullish => s.bullish
  | .bearish => s.bearish
  | .neutral => s.neutral
  | .volatile => s.volatile
  | .recovering => s.recovering

/-- The scoring phase of `determine_advanced_mood`: each `if`/`elif`
block of the Python function, applied in the same fixed sequence. -/
def mood_scores (ind : MoodIndicators) : MoodScores :=
  let s : MoodScores := ⟨0, 0, 0, 0, 0⟩
  -- Price change scoring
  let s :=
    if ind.price_change > 5 then { s with bullish := s.bullish + 3 }
    else if ind.price_change < -5 then { s with bearish := s.bearish + 3 }
    else if -2 ≤ ind.price_change ∧ ind.price_change ≤ 2 then
      { s with neutral := s.neutral + 2 }
    else if -5 ≤ ind.price_change ∧ ind.price_change < -2 then
      { s with recovering := s.recovering + 2 }
    else s
  -- Volatility scoring
  let s :=
    if ind.volatility > 1/10 then { s with volatile := s.volatile + 3 }
    else if 1/20 < ind.volatility ∧ ind.volatility ≤ 1/10 then
      { s with volatile := s.volatile + 1 }
    else s
  -- Volume impact
  let s :=
    if ind.trading_volume > 1500000000 then
      let s := { s with volatile := s.volatile + 1 }
      if ind.price_change > 0 then { s with bullish := s.bullish + 1 }
      else { s with bearish := s.bearish + 1 }
    else s
  -- Recovery patterns
  let s :=
    if -8 ≤ ind.price_change ∧ ind.price_change < -2 ∧ ind.volatility < 8/100 then
      { s with recovering := s.recovering + 2 }
    else s
  -- Optional indicators when available
  let s :=
    match ind.social_sentiment with
    | some ss =>
      if ss > 7/10 then { s with bullish := s.bullish + 1 }
      else if ss < 3/10 then { s with bearish := s.bearish + 1 }
      else s
    | none => s
  let s :=
    match ind.funding_rates with
    | some fr => if |fr| > 1/100 then { s with volatile := s.volatile + 1 } else s
    | none => s
  let s :=
    match ind.liquidation_volume with
    | some lv =>
      if lv > 100000000 then
        { s with volatile := s.volatile + 2, bearish := s.bearish + 1 }
      else s
    | none => s
  s

/-- `max(mood_scores.items(), key=lambda x: x[1])[0]`: Python's `max`
starts from the first dict item and replaces the current best only on a
strictly greater key, so on ties the earliest item in insertion order
wins. -/
def pickMood (s : MoodScores) : Mood :=
  [Mood.bearish, Mood.neutral, Mood.volatile, Mood.recovering].foldl
    (fun best m => if s.score m > s.score best then m else best) Mood.bullish

/-- `determine_advanced_mood` of mood_config.py. -/
def determine_advanced_mood (ind : MoodIndicators) : Mood :=
  pickMood (mood_scores ind)

/-- Position of a mood in the dict insertion order
(bullish, bearish, neutral, volatile, recovering). -/
def moodPriority : Mood → ℕ
  | .bullish => 0
  | .bearish => 1
  | .neutral => 2
  | .volatile => 3
  | .recovering => 4

/-- `pickMood` returns a maximal-score mood, earliest in insertion order
among ties. -/
theorem pickMood_spec (s : MoodScores) (m : Mood) :
    s.score m ≤ s.score (pickMood s) ∧
      (s.score m = s.score (pickMood s) →
        moodPriority (pickMood s) ≤ moodPriority m) := by
  cases m <;>
    simp only [pickMood, MoodScores.score, List.foldl] <;>
    split_ifs <;>
    simp_all only [MoodScores.score, moodPriority] <;>
    omega

/-- The all-zero indicator input of the tie-break test:
`price_change = 0`, `volatility = 0`, optional indicators absent. -/
def zeroIndicators (v : ℚ) : MoodIndicators :=
  { price_change := 0, trading_volume := v, volatility := 0 }

/-- Evaluation of the accumulators on the all-zero indicator input:
only the neutral band `-2 <= 0 <= 2` fires. -/
theorem mood_scores_zeroIndicators (v : ℚ) (hv : v ≤ 1500000000) :
    mood_scores (zeroIndicators v) = ⟨0, 0, 2, 0, 0⟩ := by
  have h1 : ¬(v > 1500000000) := not_lt.mpr hv
  simp only [mood_scores, zeroIndicators]
  norm_num [h1]

/-- C3 (counterexample): with `price_change = 0` and `volatility = 0`
the five accumulators are NOT all zero: `price_change = 0` satisfies
`-2 <= price_change <= 2`, so the neutral accumulator ends at 2. -/
theorem mood_zero_input_neutral_score_nonzero :
    (mood_scores (zeroIndicators 0)).neutral ≠ 0 := by
  rw [mood_scores_zeroIndicators 0 (by norm_num)]
  decide

/-- C3 (amended): for `price_change = 0`, `volatility = 0`, volume not
above the high-volume threshold and no optional indicators, the
accumulators end at `(bullish, bearish, neutral, volatile, recovering) =
(0, 0, 2, 0, 0)` — the neutral band fires — and the classifier
deterministically returns the single mood `neutral` (its score is the
unique maximum, so no tie-break is even needed), without error. -/
theorem mood_zero_input_deterministic (v : ℚ) (hv : v ≤ 1500000000) :
    mood_scores (zeroIndicators v) = ⟨0, 0, 2, 0, 0⟩ ∧
      determine_advanced_mood (zeroIndicators v) = Mood.neutral := by
  have h := mood_scores_zeroIndicators v hv
  refine ⟨h, ?_⟩
  simp [determine_advanced_mood, h, pickMood, MoodScores.score]

/-- C3 (witness): the amended statement at the concrete volume 0. -/
theorem mood_zero_input_deterministic_witness :
    mood_scores (zeroIndicators 0) = ⟨0, 0, 2, 0, 0⟩ ∧
      determine_advanced_mood (zeroIndicators 0) = Mood.neutral :=
  mood_zero_input_deterministic 0 (by norm_num)

/-- C4: for every input, `determine_advanced_mood` returns a mood with
the highest accumulated score, and on ties the earliest mood in the fixed
order bullish, bearish, neutral, volatile, recovering wins. -/
theorem determine_advanced_mood_argmax (ind : MoodIndicators) (m : Mood) :
    (mood_scores ind).score m ≤
        (mood_scores ind).score (determine_advanced_mood ind) ∧
      ((mood_scores ind).score m =
          (mood_scores ind).score (determine_advanced_mood ind) →
        moodPriority (determine_advanced_mood ind) ≤ moodPriority m) :=
  pickMood_spec (mood_scores ind) m

/-- C4 (witness): concrete instance of the argmax property at a bullish
input, with both conjuncts evaluated. -/
theorem determine_advanced_mood_argmax_witness :
    (mood_scores (zeroIndicators 0)).score Mood.volatile ≤
        (mood_scores (zeroIndicators 0)).score
          (determine_advanced_mood (zeroIndicators 0)) :=
  (determine_advanced_mood_argmax (zeroIndicators 0) Mood.volatile).1

/-! ### bot.py: `_calculate_correlations` -/

/-- The fields of a per-chain market snapshot used by
`_calculate_correlations`. -/
structure CorrSnapshot where
  price_change_percentage_24h : ℚ
  volume : ℚ
  market_cap : ℚ

/-- The result dict of `_calculate_correlations`.  The third source field
is named `market_cap_ratio`; it is rendered here as `market_cap_quot`. -/
structure CorrelationResult where
  price_correlation : ℚ
  volume_correlation : ℚ
  market_cap_quot : ℚ
deriving DecidableEq

/-- `_calculate_correlations` of bot.py on the SOL and DOT snapshots.
The whole computation sits in a `try` whose `except` returns the
fallback `{price_correlation: 0, volume_correlation: 0,
market_cap_ratio: 1}`.  Within this model the exception sources are the
three divisions (Python float division by zero raises
`ZeroDivisionError`): the price divisor `max(|changeA|, |changeB|)`, the
volume divisor `max(volA, volB)` and the market-cap divisor `capB`;
whichever of them raises first, the fallback result is the same. -/
def calculate_correlations (sol dot : CorrSnapshot) : CorrelationResult :=
  if max |sol.price_change_percentage_24h| |dot.price_change_percentage_24h|
        = 0 ∨
      max sol.volume dot.volume = 0 ∨ dot.market_cap = 0 then
    { price_correlation := 0, volume_correlation := 0, market_cap_quot := 1 }
  else
    let price_corr :=
      |sol.price_change_percentage_24h - dot.price_change_percentage_24h| /
        max |sol.price_change_percentage_24h| |dot.price_change_percentage_24h|
    let volume_corr := |(sol.volume - dot.volume) / max sol.volume dot.volume|
    { price_correlation := 1 - price_corr
      volume_correlation := 1 - volume_corr
      market_cap_quot := sol.market_cap / dot.market_cap }

/-- C1 (counterexample): 24h changes `+3` and `-3` have equal magnitude,
are not both zero, and the snapshots (volumes 100, market caps 10) stay
on the non-exceptional path — yet the computed price correlation is `-1`,
not `1`: equal magnitude with opposite signs gives
`|3 - (-3)| / max 3 3 = 2`, so `1 - 2 = -1`. -/
theorem price_correlation_equal_magnitude_ne_one :
    |(3 : ℚ)| = |(-3 : ℚ)| ∧ ¬((3 : ℚ) = 0 ∧ (-3 : ℚ) = 0) ∧
      (calculate_correlations ⟨3, 100, 10⟩ ⟨-3, 100, 10⟩).price_correlation
        = -1 ∧ (-1 : ℚ) ≠ 1 := by
  refine ⟨by norm_num, by norm_num, ?_, by norm_num⟩
  rw [calculate_correlations, if_neg (by norm_num)]
  norm_num

/-- C1 (amended): on the non-exceptional path — the volume divisor
`max(volA, volB)` and the market-cap divisor `capB` nonzero — when the
two 24h changes are EQUAL (same value, not merely equal magnitude) and
not both zero, the price correlation is exactly 1.  (A zero divisor
instead lands in the `except` fallback, whose price correlation is 0.) -/
theorem price_correlation_equal_changes_eq_one (sol dot : CorrSnapshot)
    (h : sol.price_change_percentage_24h = dot.price_change_percentage_24h)
    (h0 : ¬(sol.price_change_percentage_24h = 0 ∧
            dot.price_change_percentage_24h = 0))
    (hvol : max sol.volume dot.volume ≠ 0)
    (hcap : dot.market_cap ≠ 0) :
    (calculate_correlations sol dot).price_correlation = 1 := by
  have ha : dot.price_change_percentage_24h ≠ 0 := fun hz => h0 ⟨h.trans hz, hz⟩
  have hmax : max |sol.price_change_percentage_24h|
      |dot.price_change_percentage_24h| ≠ 0 := by
    rw [h, max_self]
    exact abs_ne_zero.mpr ha
  rw [calculate_correlations, if_neg (by push_neg; exact ⟨hmax, hvol, hcap⟩)]
  simp [h]

/-- C1 (witness): the amended statement at equal changes `2` and `2`,
volumes 100 and market caps 10 (all divisors nonzero). -/
theorem price_correlation_equal_changes_eq_one_witness :
    (calculate_correlations ⟨2, 100, 10⟩ ⟨2, 100, 10⟩).price_correlation
      = 1 :=
  price_correlation_equal_changes_eq_one ⟨2, 100, 10⟩ ⟨2, 100, 10⟩ rfl
    (by norm_num) (by norm_num) (by norm_num)

/-! ### bot.py: `_analyze_volume_trend` -/

/-- `statistics.mean` on a list of volumes. -/
def listMean (l : List ℚ) : ℚ := l.sum / l.length

/-- `_analyze_volume_trend` of bot.py, parameterized by the configured
`VOLUME_TREND_THRESHOLD`.  Historical rows are reduced to their volume
column (the timestamps are unused by the computation).  The body sits in
a `try` whose `except` returns `(0.0, "error")`; within this model its
exception source is the division by `avg_volume` (Python float division
by zero raises `ZeroDivisionError`), so a zero mean volume lands in the
`error` branch.  Returns `(percentage_change, trend_description)`. -/
def analyze_volume_trend (threshold : ℚ) (current_volume : ℚ)
    (historical_data : List ℚ) : ℚ × String :=
  match historical_data with
  | [] => (0, "insufficient_data")
  | _ =>
    let avg_volume := listMean historical_data
    if avg_volume = 0 then (0, "error")
    else
      let volume_change := (current_volume - avg_volume) / avg_volume * 100
      let trend :=
        if volume_change ≥ threshold then "significant_increase"
        else if volume_change ≤ -threshold then "significant_decrease"
        else if volume_change ≥ 5 then "moderate_increase"
        else if volume_change ≤ -5 then "moderate_decrease"
        else "stable"
      (volume_change, trend)

/-- The classification described by the spec's threshold table, applied
to an already-computed percentage change (first match wins, in this
order). -/
def classifyTrendSpec (threshold pct : ℚ) : String :=
  if pct ≥ threshold then "significant_increase"
  else if pct ≤ -threshold then "significant_decrease"
  else if pct ≥ 5 then "moderate_increase"
  else if pct ≤ -5 then "moderate_decrease"
  else "stable"

/-- C5: volume-trend analysis returns `(0, insufficient_data)` on an
empty history; on a non-empty history whose mean volume is nonzero (so
the division does not raise into the `error` branch) it returns the
percentage change `(current - mean) / mean * 100` together with the
spec's first-match classification; and at threshold 10 the boundary
cases behave as stated: pct 10.0 is a significant increase, pct 9.99 a
moderate increase, pct 4.9 stable. -/
theorem analyze_volume_trend_spec :
    (∀ th c : ℚ, analyze_volume_trend th c [] = (0, "insufficient_data")) ∧
    (∀ (th c : ℚ) (hist : List ℚ), hist ≠ [] → listMean hist ≠ 0 →
      analyze_volume_trend th c hist =
        ((c - listMean hist) / listMean hist * 100,
          classifyTrendSpec th ((c - listMean hist) / listMean hist * 100))) ∧
    analyze_volume_trend 10 110 [100] = (10, "significant_increase") ∧
    analyze_volume_trend 10 (10999/100) [100]
      = (999/100, "moderate_increase") ∧
    analyze_volume_trend 10 (1049/10) [100] = (49/10, "stable") := by
  refine ⟨fun th c => rfl, fun th c hist h hm => ?_, ?_, ?_, ?_⟩
  · cases hist with
    | nil => exact absurd rfl h
    | cons a l =>
      show (if listMean (a :: l) = 0 then ((0 : ℚ), "error")
        else ((c - listMean (a :: l)) / listMean (a :: l) * 100,
          classifyTrendSpec th
            ((c - listMean (a :: l)) / listMean (a :: l) * 100))) = _
      rw [if_neg hm]
  · norm_num [analyze_volume_trend, listMean, classifyTrendSpec]
  · norm_num [analyze_volume_trend, listMean, classifyTrendSpec]
  · norm_num [analyze_volume_trend, listMean, classifyTrendSpec]

/-- C5 (witness): the non-empty nonzero-mean branch of the specification
applied at a concrete history. -/
theorem analyze_volume_trend_spec_witness :
    analyze_volume_trend 10 110 [100] =
      ((110 - listMean [100]) / listMean [100] * 100,
        classifyTrendSpec 10 ((110 - listMean [100]) / listMean [100] * 100)) :=
  analyze_volume_trend_spec.2.1 10 110 [100] (by simp)
    (by norm_num [listMean])

/-! ### bot.py: `_should_post_update` -/

/-- The per-chain fields consulted by the trigger decision. -/
structure ChainData where
  current_price : ℚ
  volume : ℚ
deriving DecidableEq

/-- The config thresholds consulted by `_should_post_update`. -/
structure TriggerConfig where
  price_change_threshold : ℚ
  volume_change_threshold : ℚ
  volume_trend_threshold : ℚ
  base_interval : ℚ

/-- Python dict lookup (`d[k]` / `k in d`), on an association list. -/
def alookup {α : Type} (d : List (String × α)) (k : String) : Option α :=
  (d.find? (fun p => p.1 == k)).map Prod.snd

/-- Python's `str.upper()` on ASCII chain symbols. -/
def pyUpper (s : String) : String := ⟨s.data.map Char.toUpper⟩

/-- Python's `str.lower()` on ASCII chain symbols. -/
def pyLower (s : String) : String := ⟨s.data.map Char.toLower⟩

/-- The chain loop of `_should_post_update`: iterate the target chains in
order; skip a chain missing from either snapshot; fire on immediate price
change, then immediate volume change, then (when the store returned a
non-empty history) a significant rolling-window volume trend; the first
check that fires breaks out of the loop with its reason string. -/
def check_chains (cfg : TriggerConfig)
    (new_data last_data : List (String × ChainData))
    (hist : String → List ℚ) : List String → Option String
  | [] => none
  | chain :: rest =>
    match alookup new_data chain, alookup last_data chain with
    | some nd, some od =>
      let price_change :=
        |(nd.current_price - od.current_price) / od.current_price * 100|
      let immediate_volume_change :=
        |(nd.volume - od.volume) / od.volume * 100|
      if price_change ≥ cfg.price_change_threshold then
        some ("price_change_" ++ pyLower chain)
      else if immediate_volume_change ≥ cfg.volume_change_threshold then
        some ("volume_change_" ++ pyLower chain)
      else
        match hist chain with
        | [] => check_chains cfg new_data last_data hist rest
        | hv =>
          let trend :=
            (analyze_volume_trend cfg.volume_trend_threshold nd.volume hv).2
          if trend = "significant_increase" ∨ trend = "significant_decrease"
          then some ("volume_trend_" ++ pyLower chain ++ "_" ++ trend)
          else check_chains cfg new_data last_data hist rest
    | _, _ => check_chains cfg new_data last_data hist rest

/-- The reason left in `trigger_reason` after the chain loop and the
regular-interval check of `_should_post_update`
(`trigger_reason = trigger_reason or "regular_interval"`). -/
def trigger_reason_calc (cfg : TriggerConfig) (target_chains : List String)
    (hist : String → List ℚ) (time_since_last : ℚ)
    (last_market_data new_data : List (String × ChainData)) :
    Option String :=
  let r0 := check_chains cfg new_data last_market_data hist target_chains
  if time_since_last ≥ cfg.base_interval then
    some (r0.getD "regular_interval")
  else r0

/-- `_should_post_update` of bot.py.  `last_market_data = []` models the
empty (falsy) initial `self.last_market_data`; `hist` models the store's
historical volume rows per chain; `time_since_last` models
`(datetime.now() - self.last_check_time).total_seconds()`.  Returns
`(should_post, trigger_reason, updated last_market_data)`. -/
def should_post_update (cfg : TriggerConfig) (target_chains : List String)
    (hist : String → List ℚ) (time_since_last : ℚ)
    (last_market_data new_data : List (String × ChainData)) :
    Bool × Option String × List (String × ChainData) :=
  if last_market_data = [] then (true, some "initial_post", new_data)
  else
    match trigger_reason_calc cfg target_chains hist time_since_last
        last_market_data new_data with
    | some reason => (true, some reason, new_data)
    | none => (false, none, last_market_data)

/-- A string with a non-empty left part is non-empty. -/
theorem append_ne_empty_left (a b : String) (h : a ≠ "") : a ++ b ≠ "" := by
  intro he
  apply h
  have hl := congrArg String.length he
  rw [String.length_append, show ("" : String).length = 0 from rfl] at hl
  have h0 : a.length = 0 := by omega
  have h1 : a.data.length = 0 := h0
  exact congrArg String.mk (List.length_eq_zero.mp h1)

/-- Every reason produced by the chain loop is a non-empty string. -/
theorem check_chains_ne_empty (cfg : TriggerConfig)
    (new_data last_data : List (String × ChainData))
    (hist : String → List ℚ) (chains : List String) (s : String)
    (h : check_chains cfg new_data last_data hist chains = some s) :
    s ≠ "" := by
  induction chains with
  | nil => simp [check_chains] at h
  | cons chain rest ih =>
    rw [check_chains] at h
    rcases hn : alookup new_data chain with _ | nd <;>
      rcases ho : alookup last_data chain with _ | od <;>
      rw [hn, ho] at h
    · exact ih h
    · exact ih h
    · exact ih h
    · simp only at h
      split_ifs at h with h1 h2
      · obtain rfl := Option.some_inj.mp h
        exact append_ne_empty_left _ _ (by decide)
      · obtain rfl := Option.some_inj.mp h
        exact append_ne_empty_left _ _ (by decide)
      · rcases hh : hist chain with _ | ⟨v, l⟩ <;> rw [hh] at h
        · exact ih h
        · simp only at h
          split_ifs at h with h3
          · obtain rfl := Option.some_inj.mp h
            exact append_ne_empty_left _ _
              (append_ne_empty_left _ _ (append_ne_empty_left _ _ (by decide)))
          · exact ih h

/-- Every reason produced by `trigger_reason_calc` is non-empty. -/
theorem trigger_reason_calc_ne_empty (cfg : TriggerConfig)
    (target_chains : List String) (hist : String → List ℚ)
    (time_since_last : ℚ)
    (last_market_data new_data : List (String × ChainData)) (s : String)
    (h : trigger_reason_calc cfg target_chains hist time_since_last
        last_market_data new_data = some s) :
    s ≠ "" := by
  unfold trigger_reason_calc at h
  rcases hr : check_chains cfg new_data last_market_data hist target_chains
    with _ | x <;> rw [hr] at h <;> split_ifs at h
  · obtain rfl := Option.some_inj.mp h
    decide
  · obtain rfl := Option.some_inj.mp h
    exact check_chains_ne_empty _ _ _ _ _ _ hr
  · obtain rfl := Option.some_inj.mp h
    exact check_chains_ne_empty _ _ _ _ _ _ hr

/-- C6: the trigger decision's boolean equals `reason != null`, and a
positive decision always carries a non-empty reason string. -/
theorem should_post_update_reason_sound (cfg : TriggerConfig)
    (target_chains : List String) (hist : String → List ℚ)
    (time_since_last : ℚ)
    (last_market_data new_data : List (String × ChainData)) :
    ((should_post_update cfg target_chains hist time_since_last
        last_market_data new_data).1 =
      (should_post_update cfg target_chains hist time_since_last
        last_market_data new_data).2.1.isSome) ∧
    (∀ s, (should_post_update cfg target_chains hist time_since_last
        last_market_data new_data).2.1 = some s → s ≠ "") := by
  unfold should_post_update
  split_ifs with h0
  · exact ⟨rfl, fun s hs => by obtain rfl := Option.some_inj.mp hs; decide⟩
  · rcases hr : trigger_reason_calc cfg target_chains hist time_since_last
        last_market_data new_data with _ | x
    · exact ⟨rfl, fun s hs => Option.noConfusion hs⟩
    · exact ⟨rfl, fun s hs => by
        obtain rfl := Option.some_inj.mp hs
        exact trigger_reason_calc_ne_empty _ _ _ _ _ _ _ hr⟩

/-- C6 (witness): concrete no-baseline call, where the decision is
positive and the reason is `initial_post`. -/
theorem should_post_update_reason_sound_witness :
    (should_post_update ⟨5, 10, 10, 3600⟩ ["SOL", "DOT"] (fun _ => []) 0
        [] [("SOL", ⟨100, 1000⟩)]).1 =
      (should_post_update ⟨5, 10, 10, 3600⟩ ["SOL", "DOT"] (fun _ => []) 0
        [] [("SOL", ⟨100, 1000⟩)]).2.1.isSome :=
  (should_post_update_reason_sound ⟨5, 10, 10, 3600⟩ ["SOL", "DOT"]
    (fun _ => []) 0 [] [("SOL", ⟨100, 1000⟩)]).1

/-- C7: the stored baseline is replaced by the new snapshots exactly when
the decision is positive (on a negative decision it is untouched), and a
call with no prior baseline always returns `(true, initial_post)` and
adopts the new snapshots. -/
theorem should_post_update_baseline_frame (cfg : TriggerConfig)
    (target_chains : List String) (hist : String → List ℚ)
    (time_since_last : ℚ)
    (last_market_data new_data : List (String × ChainData)) :
    ((should_post_update cfg target_chains hist time_since_last
        last_market_data new_data).2.2 =
      if (should_post_update cfg target_chains hist time_since_last
          last_market_data new_data).1
      then new_data else last_market_data) ∧
    (last_market_data = [] →
      should_post_update cfg target_chains hist time_since_last
        last_market_data new_data = (true, some "initial_post", new_data)) := by
  by_cases h0 : last_market_data = []
  · simp [should_post_update, h0]
  · rcases hr : trigger_reason_calc cfg target_chains hist time_since_last
        last_market_data new_data with _ | x <;>
      simp [should_post_update, h0, hr]

/-- C7 (witness): frame property evaluated at a concrete negative-decision
cycle: the baseline is left untouched. -/
theorem should_post_update_baseline_frame_witness :
    (should_post_update ⟨5, 10, 10, 3600⟩ ["SOL"] (fun _ => []) 0
        [("SOL", ⟨100, 1000⟩)] [("SOL", ⟨100, 1000⟩)]).2.2 =
      if (should_post_update ⟨5, 10, 10, 3600⟩ ["SOL"] (fun _ => []) 0
          [("SOL", ⟨100, 1000⟩)] [("SOL", ⟨100, 1000⟩)]).1
      then [("SOL", ⟨100, 1000⟩)] else [("SOL", ⟨100, 1000⟩)] :=
  (should_post_update_baseline_frame ⟨5, 10, 10, 3600⟩ ["SOL"]
    (fun _ => []) 0 [("SOL", ⟨100, 1000⟩)] [("SOL", ⟨100, 1000⟩)]).1

/-! ### bot.py: `_track_prediction` and `_validate_past_prediction` -/

/-- An entry of `self.past_predictions`.  `timestamp` is in seconds;
`outcome = none` is the pending state. -/
structure Prediction where
  timestamp : ℚ
  prediction : String
  prices : List (String × ℚ)
  sentiment : List (String × String)
  outcome : Option String
deriving DecidableEq

/-- `_track_prediction` of bot.py: append an entry with pending outcome,
then keep only the entries strictly younger than 86400 seconds.  `now`
models `datetime.now()` (as seconds); the prices/sentiment dicts are the
ones extracted from the prediction payload. -/
def track_prediction (now : ℚ) (analysis : String)
    (prices : List (String × ℚ)) (sentiment : List (String × String))
    (past_predictions : List Prediction) : List Prediction :=
  let appended := past_predictions ++
    [{ timestamp := now, prediction := analysis, prices := prices,
       sentiment := sentiment, outcome := none }]
  appended.filter (fun p => now - p.timestamp < 86400)

/-- `sentiment_map.get(x, 0)` of `_validate_past_prediction`:
bullish ↦ 1, bearish ↦ -1, neutral ↦ 0, anything else ↦ the default 0. -/
def sentiment_sign (s : String) : ℚ :=
  if s = "bullish" then 1
  else if s = "bearish" then -1
  else if s = "neutral" then 0
  else 0

/-- The `wrong_chains` loop of `_validate_past_prediction` over
`prediction['prices'].items()`: chains absent from `current_prices` are
skipped; for a chain present in both, the recorded sentiment is looked up
under the upper-cased chain key (`none` models the `KeyError` the Python
code raises when it is missing), and the chain is collected when
`sentiment * price_change < -2`. -/
def wrong_chains_calc (sentiment : List (String × String))
    (current_prices : List (String × ℚ)) :
    List (String × ℚ) → Option (List String)
  | [] => some []
  | (chain, old_price) :: rest =>
    match alookup current_prices chain with
    | none => wrong_chains_calc sentiment current_prices rest
    | some cur =>
      match alookup sentiment (pyUpper chain) with
      | none => none
      | some sent =>
        let price_change := (cur - old_price) / old_price * 100
        (wrong_chains_calc sentiment current_prices rest).map
          (fun ws =>
            if sentiment_sign sent * price_change < -2 then chain :: ws
            else ws)

/-- `_validate_past_prediction` of bot.py: `'wrong' if wrong_chains else
'right'`; `none` models the uncaught `KeyError` on a missing sentiment. -/
def validate_past_prediction (pred : Prediction)
    (current_prices : List (String × ℚ)) : Option String :=
  (wrong_chains_calc pred.sentiment current_prices pred.prices).map
    (fun ws => if ws = [] then "right" else "wrong")

/-- "Some chain of the list is counted wrong": it is present in both
price maps, its sentiment is recorded, and `sign * change < -2`. -/
def someChainWrong (sentiment : List (String × String))
    (current_prices : List (String × ℚ)) (prices : List (String × ℚ)) :
    Prop :=
  ∃ chain old_price cur sent,
    (chain, old_price) ∈ prices ∧
    alookup current_prices chain = some cur ∧
    alookup sentiment (pyUpper chain) = some sent ∧
    sentiment_sign sent * ((cur - old_price) / old_price * 100) < -2

/-- Under the well-formedness the running bot maintains (every priced
chain that is also in `current_prices` has a recorded sentiment), the
`wrong_chains` loop succeeds and is non-empty exactly when some chain is
counted wrong. -/
theorem wrong_chains_calc_spec (sentiment : List (String × String))
    (current_prices : List (String × ℚ)) (prices : List (String × ℚ))
    (hs : ∀ chain old_price, (chain, old_price) ∈ prices →
      (alookup current_prices chain).isSome →
      (alookup sentiment (pyUpper chain)).isSome) :
    ∃ ws, wrong_chains_calc sentiment current_prices prices = some ws ∧
      (ws ≠ [] ↔ someChainWrong sentiment current_prices prices) := by
  induction prices with
  | nil =>
    refine ⟨[], rfl, by simp [someChainWrong]⟩
  | cons hd rest ih =>
    obtain ⟨chain, old_price⟩ := hd
    obtain ⟨ws, hws, hiff⟩ := ih (fun c o hco => hs c o (List.mem_cons_of_mem _ hco))
    rcases hcur : alookup current_prices chain with _ | cur
    · refine ⟨ws, ?_, ?_⟩
      · rw [wrong_chains_calc, hcur]
        exact hws
      · rw [hiff]
        constructor
        · rintro ⟨c, o, cu, se, hmem, h1, h2, h3⟩
          exact ⟨c, o, cu, se, List.mem_cons_of_mem _ hmem, h1, h2, h3⟩
        · rintro ⟨c, o, cu, se, hmem, h1, h2, h3⟩
          rcases List.mem_cons.mp hmem with heq | hmem'
          · obtain ⟨rfl, rfl⟩ := Prod.mk.injEq .. ▸ heq
            rw [hcur] at h1
            exact absurd h1 (by simp)
          · exact ⟨c, o, cu, se, hmem', h1, h2, h3⟩
    · have hsent : (alookup sentiment (pyUpper chain)).isSome :=
        hs chain old_price (List.mem_cons_self _ _) (by rw [hcur]; rfl)
      rcases hse : alookup sentiment (pyUpper chain) with _ | sent
      · rw [hse] at hsent
        exact absurd hsent (by simp)
      · by_cases hw : sentiment_sign sent *
            ((cur - old_price) / old_price * 100) < -2
        · refine ⟨chain :: ws, ?_, ?_⟩
          · rw [wrong_chains_calc, hcur, hse, hws]
            simp [hw]
          · simp only [ne_eq, reduceCtorEq, not_false_eq_true, true_iff]
            exact ⟨chain, old_price, cur, sent, List.mem_cons_self _ _,
              hcur, hse, hw⟩
        · refine ⟨ws, ?_, ?_⟩
          · rw [wrong_chains_calc, hcur, hse, hws]
            simp [hw]
          · rw [hiff]
            constructor
            · rintro ⟨c, o, cu, se, hmem, h1, h2, h3⟩
              exact ⟨c, o, cu, se, List.mem_cons_of_mem _ hmem, h1, h2, h3⟩
            · rintro ⟨c, o, cu, se, hmem, h1, h2, h3⟩
              rcases List.mem_cons.mp hmem with heq | hmem'
              · obtain ⟨rfl, rfl⟩ := Prod.mk.injEq .. ▸ heq
                rw [hcur] at h1
                obtain rfl := Option.some_inj.mp h1
                rw [hse] at h2
                obtain rfl := Option.some_inj.mp h2
                exact absurd h3 hw
              · exact ⟨c, o, cu, se, hmem', h1, h2, h3⟩

/-- C8 (counterexample): the pruning filter keeps only entries strictly
younger than 86400 s, so an entry whose age is exactly 86400 s — an age
that does NOT exceed 24 hours — is nevertheless removed by `record`. -/
theorem track_prediction_boundary_pruned :
    ¬((100000 : ℚ) - (13600 : ℚ) > 86400) ∧
      (⟨13600, "p", [], [], none⟩ : Prediction) ∉
        track_prediction 100000 "q" [] [] [⟨13600, "p", [], [], none⟩] := by
  constructor
  · norm_num
  · intro hmem
    have h := (List.mem_filter.mp hmem).2
    norm_num at h

/-- C8 (amended): `record` appends an entry with pending outcome
(`outcome = none`) and keeps exactly the entries of age strictly below
86400 s (pruning those aged 86400 s or more); in particular an entry
recorded 86401 s ago is pruned and one recorded 86399 s ago survives. -/
theorem track_prediction_spec (now : ℚ) (analysis : String)
    (prices : List (String × ℚ)) (sentiment : List (String × String))
    (past_predictions : List Prediction) (p : Prediction) :
    (p ∈ track_prediction now analysis prices sentiment past_predictions ↔
      (p ∈ past_predictions ∨
        p = ⟨now, analysis, prices, sentiment, none⟩) ∧
      now - p.timestamp < 86400) ∧
    (⟨now - 86401, "a", [], [], none⟩ : Prediction) ∉
      track_prediction now analysis prices sentiment
        [⟨now - 86401, "a", [], [], none⟩, ⟨now - 86399, "b", [], [], none⟩] ∧
    (⟨now - 86399, "b", [], [], none⟩ : Prediction) ∈
      track_prediction now analysis prices sentiment
        [⟨now - 86401, "a", [], [], none⟩, ⟨now - 86399, "b", [], [], none⟩] := by
  refine ⟨?_, ?_, ?_⟩
  · simp only [track_prediction, List.mem_filter, List.mem_append,
      List.mem_singleton, decide_eq_true_eq]
  · intro hmem
    have h := (List.mem_filter.mp hmem).2
    norm_num at h
  · refine List.mem_filter.mpr ⟨?_, ?_⟩
    · simp [track_prediction]
    · norm_num

/-- C8 (witness): the membership characterization applied at a concrete
call: the freshly appended pending entry is in the resulting list. -/
theorem track_prediction_spec_witness :
    (⟨1000, "x", [], [], none⟩ : Prediction) ∈
      track_prediction 1000 "x" [] [] [] :=
  ((track_prediction_spec 1000 "x" [] [] [] ⟨1000, "x", [], [], none⟩).1).mpr
    ⟨Or.inr rfl, by norm_num⟩

/-- C9: under the well-formedness the bot maintains (a sentiment is
recorded for every chain priced in both maps), validation returns
`wrong` exactly when some chain present in both price maps has
`sentimentSign * priceChangePct < -2`, and `right` exactly otherwise;
and the spec's concrete case (bullish, old 100, new 95) is `wrong`. -/
theorem validate_past_prediction_spec (pred : Prediction)
    (current_prices : List (String × ℚ))
    (hs : ∀ chain old_price, (chain, old_price) ∈ pred.prices →
      (alookup current_prices chain).isSome →
      (alookup pred.sentiment (pyUpper chain)).isSome) :
    (validate_past_prediction pred current_prices = some "wrong" ↔
      someChainWrong pred.sentiment current_prices pred.prices) ∧
    (validate_past_prediction pred current_prices = some "right" ↔
      ¬ someChainWrong pred.sentiment current_prices pred.prices) ∧
    validate_past_prediction ⟨0, "t", [("SOL", 100)], [("SOL", "bullish")], none⟩
      [("SOL", 95)] = some "wrong" := by
  obtain ⟨ws, hws, hiff⟩ :=
    wrong_chains_calc_spec pred.sentiment current_prices pred.prices hs
  refine ⟨?_, ?_, ?_⟩
  · rw [validate_past_prediction, hws, ← hiff]
    rcases ws with _ | ⟨w, ws'⟩ <;> simp
  · rw [validate_past_prediction, hws, ← hiff]
    rcases ws with _ | ⟨w, ws'⟩ <;> simp
  · have hup : pyUpper "SOL" = "SOL" := by decide
    have : wrong_chains_calc [("SOL", "bullish")] [("SOL", 95)]
        [("SOL", (100 : ℚ))] = some ["SOL"] := by
      rw [wrong_chains_calc]
      norm_num [alookup, sentiment_sign, wrong_chains_calc, hup]
    rw [validate_past_prediction]
    simp only at this ⊢
    rw [this]
    simp

/-- C9 (witness): the `wrong` characterization applied at the concrete
bullish 100 → 95 prediction. -/
theorem validate_past_prediction_spec_witness :
    validate_past_prediction
      ⟨0, "t", [("SOL", 100)], [("SOL", "bullish")], none⟩ [("SOL", 95)]
      = some "wrong" :=
  (validate_past_prediction_spec
    ⟨0, "t", [("SOL", 100)], [("SOL", "bullish")], none⟩ [("SOL", 95)]
    (by
      intro chain old_price hmem _
      simp only [List.mem_singleton, Prod.mk.injEq] at hmem
      obtain ⟨rfl, rfl⟩ := hmem
      rfl)).2.2

/-- All sentiments outside the map default to sign 0 and can never make a
chain wrong. -/
theorem wrong_chains_calc_zero_sign (sentiment : List (String × String))
    (current_prices : List (String × ℚ)) (prices : List (String × ℚ))
    (hz : ∀ chain old_price, (chain, old_price) ∈ prices →
      (alookup current_prices chain).isSome →
      ∃ sent, alookup sentiment (pyUpper chain) = some sent ∧
        sentiment_sign sent = 0) :
    wrong_chains_calc sentiment current_prices prices = some [] := by
  induction prices with
  | nil => rfl
  | cons hd rest ih =>
    obtain ⟨chain, old_price⟩ := hd
    have ihr := ih (fun c o hco => hz c o (List.mem_cons_of_mem _ hco))
    rcases hcur : alookup current_prices chain with _ | cur
    · rw [wrong_chains_calc, hcur]
      exact ihr
    · obtain ⟨sent, hse, hsz⟩ :=
        hz chain old_price (List.mem_cons_self _ _) (by rw [hcur]; rfl)
      rw [wrong_chains_calc, hcur, hse, ihr]
      have : ¬ sentiment_sign sent *
          ((cur - old_price) / old_price * 100) < -2 := by
        rw [hsz]
        norm_num
      simp [this]

/-- C10: a sentiment outside {bullish, bearish, neutral} gets sign 0 via
the dict default — in particular `volatile` and `recovering`, both of
which `determine_advanced_mood` can return — so such a chain is never
counted wrong, and a prediction whose recorded sentiments are all
`volatile` or `recovering` always validates as `right` (whatever the
price movement). -/
theorem validate_volatile_recovering_always_right (pred : Prediction)
    (current_prices : List (String × ℚ))
    (hv : ∀ chain old_price, (chain, old_price) ∈ pred.prices →
      (alookup current_prices chain).isSome →
      ∃ sent, alookup pred.sentiment (pyUpper chain) = some sent ∧
        (sent = "volatile" ∨ sent = "recovering")) :
    sentiment_sign "volatile" = 0 ∧ sentiment_sign "recovering" = 0 ∧
      determine_advanced_mood ⟨0, 0, 1, none, none, none⟩ = Mood.volatile ∧
      determine_advanced_mood ⟨-3, 0, 0, none, none, none⟩ = Mood.recovering ∧
      validate_past_prediction pred current_prices = some "right" := by
  refine ⟨by decide, by decide, ?_, ?_, ?_⟩
  · norm_num [determine_advanced_mood, mood_scores, pickMood,
      MoodScores.score]
  · norm_num [determine_advanced_mood, mood_scores, pickMood,
      MoodScores.score]
  · have h := wrong_chains_calc_zero_sign pred.sentiment current_prices
      pred.prices (by
        intro chain old_price hmem hcur
        obtain ⟨sent, hse, hvr⟩ := hv chain old_price hmem hcur
        refine ⟨sent, hse, ?_⟩
        rcases hvr with rfl | rfl <;> decide)
    rw [validate_past_prediction, h]
    rfl

/-- C10 (witness): a concrete all-volatile prediction validates `right`
despite a large price drop. -/
theorem validate_volatile_recovering_always_right_witness :
    validate_past_prediction
      ⟨0, "t", [("SOL", 100)], [("SOL", "volatile")], none⟩ [("SOL", 10)]
      = some "right" :=
  (validate_volatile_recovering_always_right
    ⟨0, "t", [("SOL", 100)], [("SOL", "volatile")], none⟩ [("SOL", 10)]
    (by
      intro chain old_price hmem _
      simp only [List.mem_singleton, Prod.mk.injEq] at hmem
      obtain ⟨rfl, rfl⟩ := hmem
      exact ⟨"volatile", rfl, Or.inl rfl⟩)).2.2.2.2

/-! ### config.py: CoinGeckoHandler rate limiting (HTTP 429 path) -/

/-- A rate-limit response header as the fetcher sees it: missing
(`response.headers.get` then falls back to its default `0`), present with
an integer value, or present but unparseable (so `int(...)` raises and
`_update_rate_limits` leaves the stored values unchanged). -/
inductive RateHeader where
  | absent
  | value (n : ℤ)
  | malformed
deriving DecidableEq, Repr

/-- The integer `_update_rate_limits` obtains for a parseable header:
the header value, or the `get` default `0` when the header is absent. -/
def RateHeader.parsed : RateHeader → ℤ
  | .absent => 0
  | .value n => n
  | .malformed => 0

/-- The mutable fetcher state touched by the 429 path: the stored
rate-limit info (`None` until first recorded) and the failed-request
counter. -/
structure GeckoState where
  rate_limit_remaining : Option ℤ
  rate_limit_reset_at : Option ℤ
  failed_requests : ℕ
deriving DecidableEq, Repr

/-- `_update_rate_limits` of config.py: parse the two headers with
default 0; `datetime.fromtimestamp(0)` is a real (truthy) datetime, so an
ABSENT reset header still records reset time 0.  An exception while
parsing (modelled by `malformed`) aborts the remaining assignments and is
swallowed. -/
def update_rate_limits (remainingH resetH : RateHeader)
    (st : GeckoState) : GeckoState :=
  match remainingH with
  | .malformed => st
  | _ =>
    let st1 := { st with rate_limit_remaining := some remainingH.parsed }
    match resetH with
    | .malformed => st1
    | _ => { st1 with rate_limit_reset_at := some resetH.parsed }

/-- `_handle_rate_limit_response` of config.py: wait
`max(1, reset - now + 1)` seconds when a reset time is recorded
(`if self.rate_limit_reset_at:` — a stored datetime is always truthy),
else the default 60 seconds.  `now` is in seconds since the epoch. -/
def handle_rate_limit_response (now : ℚ) (st : GeckoState) : ℚ :=
  match st.rate_limit_reset_at with
  | some reset => max 1 ((reset : ℚ) - now + 1)
  | none => 60

/-- `MAX_RETRIES` default of `get_market_data`. -/
def max_retries : ℕ := 3

/-- The `status_code == 429` branch of `get_market_data`'s retry loop:
rate limits are updated from the response first, the failed-request
counter is incremented, the computed wait is slept, and the shared retry
counter is incremented before `continue`.  Returns
`(new state, wait seconds, new retry_count)`. -/
def handle_429 (remainingH resetH : RateHeader) (now : ℚ)
    (st : GeckoState) (retry_count : ℕ) : GeckoState × ℚ × ℕ :=
  let st1 := update_rate_limits remainingH resetH st
  let st2 := { st1 with failed_requests := st1.failed_requests + 1 }
  (st2, handle_rate_limit_response now st2, retry_count + 1)

/-- The non-200/non-429 branch of the same loop: increment the
failed-request counter, back off `base_wait * 2^retry_count`, increment
the same shared retry counter. -/
def handle_http_error (base_wait : ℚ) (st : GeckoState)
    (retry_count : ℕ) : GeckoState × ℚ × ℕ :=
  ({ st with failed_requests := st.failed_requests + 1 },
    base_wait * 2 ^ retry_count, retry_count + 1)

/-- C2 (counterexample): a 429 whose response carries no rate-limit
headers, arriving at epoch-time 1000 with nothing recorded before, waits
1 second, not the claimed 60: the absent reset header is parsed as the
default 0, `fromtimestamp(0)` is truthy, and
`max(1, (0 - 1000) + 1) = 1`. -/
theorem handle_429_absent_headers_waits_one :
    (handle_429 .absent .absent 1000 ⟨none, none, 0⟩ 0).2.1 = 1 ∧
      (1 : ℚ) ≠ 60 := by
  constructor
  · show max 1 (((0 : ℤ) : ℚ) - 1000 + 1) = 1
    rw [max_eq_left (by norm_num)]
  · norm_num

/-- C2 (amended): on HTTP 429 the fetcher increments the failed-request
count, waits `max(1, reset - now + 1)` seconds where `reset` is the reset
header parsed with absent-as-0 (so absent headers yield a 1-second wait
whenever `now ≥ 0`, not 60; the 60-second default applies only when no
reset time was ever recorded, i.e. every header so far failed to parse),
and the retry consumes the same bounded `retry_count` counter
(max 3, exactly as the non-200 error branch does). -/
theorem handle_429_spec (remainingH resetH : RateHeader) (now base_wait : ℚ)
    (st : GeckoState) (retry_count : ℕ) :
    ((handle_429 remainingH resetH now st retry_count).1.failed_requests
        = st.failed_requests + 1) ∧
    ((handle_429 remainingH resetH now st retry_count).2.2
        = retry_count + 1) ∧
    ((handle_429 remainingH resetH now st retry_count).2.1 =
      match (update_rate_limits remainingH resetH st).rate_limit_reset_at with
      | some reset => max 1 ((reset : ℚ) - now + 1)
      | none => 60) ∧
    (resetH = .absent → remainingH ≠ .malformed → 0 ≤ now →
      (handle_429 remainingH resetH now st retry_count).2.1 = 1) ∧
    ((update_rate_limits remainingH resetH st).rate_limit_reset_at = none →
      (handle_429 remainingH resetH now st retry_count).2.1 = 60) ∧
    ((handle_http_error base_wait st retry_count).2.2 = retry_count + 1 ∧
      max_retries = 3) := by
  have hfail : (update_rate_limits remainingH resetH st).failed_requests
      = st.failed_requests := by
    cases remainingH <;> cases resetH <;> rfl
  have h3 : (handle_429 remainingH resetH now st retry_count).2.1 =
      (match (update_rate_limits remainingH resetH st).rate_limit_reset_at with
        | some reset => max 1 ((reset : ℚ) - now + 1)
        | none => (60 : ℚ)) := by
    cases remainingH <;> cases resetH <;> rfl
  refine ⟨?_, rfl, h3, ?_, ?_, rfl, rfl⟩
  · show (update_rate_limits remainingH resetH st).failed_requests + 1
      = st.failed_requests + 1
    rw [hfail]
  · rintro rfl hrem hnow
    rcases remainingH with _ | n | _
    · rw [h3]
      show max 1 (((0 : ℤ) : ℚ) - now + 1) = 1
      rw [max_eq_left (by push_cast; linarith)]
    · rw [h3]
      show max 1 (((0 : ℤ) : ℚ) - now + 1) = 1
      rw [max_eq_left (by push_cast; linarith)]
    · exact absurd rfl hrem
  · intro h
    rw [h3, h]

/-- C2 (witness): the amended statement at a concrete malformed-header
429 at epoch-time 1000 on a fresh fetcher: no reset time is recorded and
the wait is the 60-second default. -/
theorem handle_429_spec_witness :
    (handle_429 .malformed .malformed 1000 ⟨none, none, 0⟩ 0).2.1 = 60 :=
  (handle_429_spec .malformed .malformed 1000 5 ⟨none, none, 0⟩ 0).2.2.2.2.1
    rfl

end Shoes
